import Mathlib

/-!
Verification development for the PhotoGeoLocator repository
(src/geolocate_photos.py), a tool that assigns GPS coordinates to photos
by interpolating a GPX track log at each photo's capture time.

The Python source is shallowly embedded below.  Python floats are
modelled as exact rationals (ℚ): every property at issue here is
structural (sign handling, control flow, error propagation) and holds or
fails identically in exact arithmetic.  Python datetimes and Unix
timestamps are both modelled as rationals; `datetime.timestamp()` is an
order isomorphism between the two, so one value serves for both the
`Datetime` and `Timestamp` columns of the point dataframe.  A Python
exception is modelled with `Except`: a raised exception propagates out
of the enclosing function unless the source wraps the statement in a
try/except block.
-/

namespace GeolocatePhotos

/-- Python's builtin `abs` on a float, modelled on ℚ. -/
def pyAbs (q : ℚ) : ℚ := if q < 0 then -q else q

/-- Embedding of `deg_to_dms` (src/geolocate_photos.py lines 51-65).

Python:
```
mins, secs = divmod(abs(deg) * 3600, 60)
degs, mins = divmod(mins, 60)
if deg < 0:
    degs = -degs
degs, mins = int(degs), int(mins)
hemi = 1 if degs > 0 else -1
degs *= hemi
return degs, mins, secs, hemi
```
`divmod(a, b)` on floats is `(⌊a / b⌋, a - b * ⌊a / b⌋)`; both quotient
values produced here are integral, so the `int(...)` casts are
value-preserving and are modelled by carrying the quotients in ℤ. -/
def degToDms (deg : ℚ) : ℤ × ℤ × ℚ × ℤ :=
  let mins0 : ℤ := ⌊(pyAbs deg * 3600) / 60⌋
  let secs : ℚ := pyAbs deg * 3600 - 60 * (mins0 : ℚ)
  let degs0 : ℤ := ⌊(mins0 : ℚ) / 60⌋
  let mins : ℤ := mins0 - 60 * degs0
  let degs1 : ℤ := if deg < 0 then -degs0 else degs0
  let hemi : ℤ := if degs1 > 0 then 1 else -1
  (degs1 * hemi, mins, secs, hemi)

/-- Recombination of a DMS quadruple back into decimal degrees,
`hemisphere * (degrees + minutes/60 + seconds/3600)`, as used by the
round-trip property of the specification (spec.md section 8). -/
def dmsToDecimal (x : ℤ × ℤ × ℚ × ℤ) : ℚ :=
  (x.2.2.2 : ℚ) * ((x.1 : ℚ) + (x.2.1 : ℚ) / 60 + x.2.2.1 / 3600)

/-- One `trkpt` element of a GPX file, as consumed by `extract_points`
(src/geolocate_photos.py lines 39-45): `none` in `time` models a point
without a nested `<time>` child (so `elm.findall(...)[0]` raises
`IndexError`), `none` in `lat`/`lon` models a missing attribute (so
`float(elm.get(...))` receives `None` and raises `TypeError`).  The
`some` payloads are the already-parsed numeric values. -/
structure RawTrkpt where
  time : Option ℚ
  lat : Option ℚ
  lon : Option ℚ

/-- One row of the dataframe built by `extract_points`: timestamp,
latitude, longitude (the `Time`/`Datetime`/`Timestamp` columns are all
derived from the single parsed time; see the module comment). -/
structure TrackPoint where
  timestamp : ℚ
  latitude : ℚ
  longitude : ℚ
deriving DecidableEq

/-- Exceptions that `extract_points` can raise while reading one point. -/
inductive LoadError
  | indexErrorNoTime
  | typeErrorNoLon
  | typeErrorNoLat
deriving DecidableEq

/-- Embedding of the point-extraction loop of `extract_points`
(src/geolocate_photos.py lines 39-48).  The loop body accesses the time
child first (line 40), then the `lon` attribute (line 43), then the
`lat` attribute (line 44); there is no try/except inside the function,
so the first missing field raises and the exception propagates,
discarding all points. -/
def extractPoints : List RawTrkpt → Except LoadError (List TrackPoint)
  | [] => .ok []
  | p :: rest =>
    match p.time with
    | none => .error .indexErrorNoTime
    | some t =>
      match p.lon with
      | none => .error .typeErrorNoLon
      | some lo =>
        match p.lat with
        | none => .error .typeErrorNoLat
        | some la =>
          match extractPoints rest with
          | .error e => .error e
          | .ok l => .ok (⟨t, la, lo⟩ :: l)

/-- State of the `datetime_original` EXIF field of a photo: absent,
present but not in the `"%Y:%m:%d %H:%M:%S"` format expected by
`get_photo_datetime`, or present and parsed to a time value. -/
inductive DtTag
  | absent
  | unparsable
  | valid (t : ℚ)
deriving DecidableEq

/-- The metadata state of one candidate photo file.  `ext` holds the
lowercased extension `os.path.splitext(path)[1].lower()`; `readOk`
records whether opening the file and decoding it with `Image(...)`
succeeds (lines 126-127 are not wrapped in try/except); the four GPS
fields model the EXIF attributes `gps_latitude`, `gps_longitude`,
`gps_latitude_ref`, `gps_longitude_ref` (`none` = attribute absent). -/
structure PhotoMeta where
  ext : String
  readOk : Bool
  dt : DtTag
  gpsLat : Option (ℤ × ℤ × ℚ)
  gpsLon : Option (ℤ × ℤ × ℚ)
  gpsLatRef : Option String
  gpsLonRef : Option String
deriving DecidableEq

/-- Embedding of `photo_has_lat_long` (src/geolocate_photos.py lines
77-87): reads all four GPS attributes inside one try, so the result is
`true` exactly when every one of the four is readable. -/
def photoHasLatLong (p : PhotoMeta) : Bool :=
  p.gpsLat.isSome && p.gpsLon.isSome && p.gpsLatRef.isSome && p.gpsLonRef.isSome

/-- Embedding of `photo_has_datetime` (lines 90-95): only attribute
access is attempted, so a present-but-unparsable value also counts. -/
def photoHasDatetime (p : PhotoMeta) : Bool :=
  match p.dt with
  | .absent => false
  | _ => true

/-- Embedding of `get_photo_datetime` (lines 98-106) as called from
`tag_photos` (no timezone argument): `strptime` failure is caught by the
bare `except Exception`, printed, and the function falls off the end
returning `None` (modelled as `none`). -/
def getPhotoDatetime (p : PhotoMeta) : Option ℚ :=
  match p.dt with
  | .valid t => some t
  | _ => none

/-- Embedding of `np.interp(x, xp, fp)` over paired sample lists, for
`xp` in increasing order as the track is assumed to be: clamps to the
end values outside the sample range and interpolates linearly between
the two bracketing samples inside it. -/
def npInterp (x : ℚ) : List (ℚ × ℚ) → ℚ
  | [] => 0
  | p :: ps =>
    match ps with
    | [] => p.2
    | q :: _ =>
      if x ≤ p.1 then p.2
      else if x ≤ q.1 then p.2 + (q.2 - p.2) * (x - p.1) / (q.1 - p.1)
      else npInterp x ps

/-- Latitude interpolation of `tag_photos` line 151:
`np.interp(photots, points_df["Timestamp"], points_df["Latitude"])`. -/
def interpLatitude (track : List TrackPoint) (t : ℚ) : ℚ :=
  npInterp t (track.map fun p => (p.timestamp, p.latitude))

/-- Longitude interpolation of `tag_photos` line 152. -/
def interpLongitude (track : List TrackPoint) (t : ℚ) : ℚ :=
  npInterp t (track.map fun p => (p.timestamp, p.longitude))

/-- Minimum of the `Datetime` column (`points_df["Datetime"].min()`,
line 120).  The empty case is junk (pandas yields NaN there); every
claim below concerns a non-empty loaded track. -/
def minDatetime : List TrackPoint → ℚ
  | [] => 0
  | p :: ps => ps.foldl (fun a q => min a q.timestamp) p.timestamp

/-- Maximum of the `Datetime` column (`points_df["Datetime"].max()`,
line 121). -/
def maxDatetime : List TrackPoint → ℚ
  | [] => 0
  | p :: ps => ps.foldl (fun a q => max a q.timestamp) p.timestamp

/-- Exceptions that can escape the body of the `tag_photos` loop, which
contains no try/except around per-photo work. -/
inductive TagError
  | ioError
  | typeErrorNoneDatetime
  | typeErrorNoneOffset
deriving DecidableEq

/-- Per-photo outcome, matching the four print branches of the loop. -/
inductive Outcome
  | tagged
  | skippedNoTimestamp
  | skippedHasLocation
  | skippedOutOfBounds
deriving DecidableEq

/-- Embedding of the overwrite deletion block (lines 156-161):

```
try:
    del photo.gps_latitude
    del photo.gps_longitude
except Exception as e:
    print(...)
```
Deleting an absent EXIF attribute raises; the exception is caught and
printed, so when `gps_latitude` is absent the statement aborts before
`del photo.gps_longitude` runs and nothing is deleted.  The two `_ref`
attributes are not touched by this block. -/
def deleteOldLatLong (p : PhotoMeta) : PhotoMeta :=
  match p.gpsLat with
  | none => p
  | some _ => { p with gpsLat := none, gpsLon := none }

/-- Embedding of the write-back block (lines 163-171): assigns the new
DMS triples and hemisphere references for both coordinates. -/
def writeNewLocation (p : PhotoMeta) (lat lon : ℚ) : PhotoMeta :=
  let la := degToDms lat
  let lo := degToDms lon
  { p with
    gpsLatRef := some (if la.2.2.2 = 1 then "N" else "S")
    gpsLat := some (la.1, la.2.1, la.2.2.1)
    gpsLonRef := some (if lo.2.2.2 = 1 then "E" else "W")
    gpsLon := some (lo.1, lo.2.1, lo.2.2.1) }

/-- Embedding of one iteration of the `tag_photos` loop (lines
125-173) on a photo that passed the extension filter.  `offset` is the
`photo_date_offset` parameter (line 112, Python default `None`); the
line-140 statement `get_photo_datetime(photo) + photo_date_offset`
raises `TypeError` when `get_photo_datetime` returned `None`
(unparsable timestamp) and also when the offset itself is `None`. -/
def processPhoto (track : List TrackPoint) (offset : Option ℚ) (overwrite : Bool)
    (p : PhotoMeta) : Except TagError (Outcome × PhotoMeta) :=
  if p.readOk = false then .error .ioError
  else if photoHasDatetime p = false then .ok (.skippedNoTimestamp, p)
  else if photoHasLatLong p = true ∧ overwrite = false then .ok (.skippedHasLocation, p)
  else
    match getPhotoDatetime p with
    | none => .error .typeErrorNoneDatetime
    | some t =>
      match offset with
      | none => .error .typeErrorNoneOffset
      | some off =>
        if t + off < minDatetime track ∨ maxDatetime track < t + off then
          .ok (.skippedOutOfBounds, p)
        else
          let lat := interpLatitude track (t + off)
          let lon := interpLongitude track (t + off)
          let p1 := if overwrite = true ∧ (p.gpsLat.isSome = true ∨ p.gpsLon.isSome = true)
                    then deleteOldLatLong p else p
          .ok (.tagged, writeNewLocation p1 lat lon)

/-- The `tag_photos` loop over the extension-filtered photo list: the
first uncaught exception aborts the whole iteration, so the result is
the outcomes of the photos processed before it plus the escaped
exception, if any. -/
def runPhotos (track : List TrackPoint) (offset : Option ℚ) (overwrite : Bool) :
    List PhotoMeta → List (Outcome × PhotoMeta) × Option TagError
  | [] => ([], none)
  | p :: rest =>
    match processPhoto track offset overwrite p with
    | .error e => ([], some e)
    | .ok op =>
      let r := runPhotos track offset overwrite rest
      (op :: r.1, r.2)

/-- Embedding of `tag_photos` (lines 109-173): filter the candidate
list by the extension allow-list (line 123), then run the loop. -/
def tagPhotos (track : List TrackPoint) (photos : List PhotoMeta)
    (offset : Option ℚ) (validFiletypes : List String) (overwrite : Bool) :
    List (Outcome × PhotoMeta) × Option TagError :=
  runPhotos track offset overwrite (photos.filter fun p => validFiletypes.contains p.ext)

/-- `tag_photos` called with only the two positional arguments, as on
line 339: the Python defaults are `photo_date_offset=None`,
`valid_filetypes=[".jpg", ".jpeg"]`, `overwrite=False` (lines 112-114). -/
def tagPhotosDefault (track : List TrackPoint) (photos : List PhotoMeta) :
    List (Outcome × PhotoMeta) × Option TagError :=
  tagPhotos track photos none [".jpg", ".jpeg"] false

/-- Two-point fixture track of spec.md section 8: samples at t=0 with
(lat 0, lon 0) and t=100 with (lat 10, lon 20). -/
def track2 : List TrackPoint := [⟨0, 0, 0⟩, ⟨100, 10, 20⟩]

/-- Fixture trkpt with all three fields present. -/
def rawGood1 : RawTrkpt := ⟨some 0, some 1, some 2⟩

/-- Fixture trkpt lacking its `lat` attribute. -/
def rawBad : RawTrkpt := ⟨some 50, none, some 3⟩

/-- Second well-formed fixture trkpt. -/
def rawGood2 : RawTrkpt := ⟨some 100, some 4, some 5⟩

/-- Fixture photo: a readable .jpg with capture time 50 and no GPS tags. -/
def photoPlain : PhotoMeta :=
  { ext := ".jpg", readOk := true, dt := .valid 50,
    gpsLat := none, gpsLon := none, gpsLatRef := none, gpsLonRef := none }

/-- Fixture photo whose open/decode raises (unreadable file). -/
def photoUnreadable : PhotoMeta := { photoPlain with readOk := false }

/-- Fixture photo with no `datetime_original` attribute. -/
def photoNoDt : PhotoMeta := { photoPlain with dt := .absent }

/-- Fixture photo whose `datetime_original` is present but unparsable. -/
def photoBadDt : PhotoMeta := { photoPlain with dt := .unparsable }

/-- Fixture photo whose capture time 150 lies beyond the track2 range. -/
def photoLate : PhotoMeta := { photoPlain with dt := .valid 150 }

/-- Fixture photo whose capture time 100 sits exactly at the track2
maximum. -/
def photoAtBound : PhotoMeta := { photoPlain with dt := .valid 100 }

/-- Fixture photo carrying all four GPS tags. -/
def photoWithGps : PhotoMeta :=
  { photoPlain with
    gpsLat := some (1, 2, 3)
    gpsLon := some (4, 5, 6)
    gpsLatRef := some "S"
    gpsLonRef := some "W" }

/-- Fixture photo carrying only three of the four GPS tags
(`gps_longitude_ref` absent). -/
def photoPartialGps : PhotoMeta :=
  { photoPlain with
    gpsLat := some (1, 2, 3)
    gpsLon := some (4, 5, 6)
    gpsLatRef := some "N" }

/-- Evaluation scheme for `degToDms`: once the two integer quotients of
the nested divmods are known, the result is obtained by substitution. -/
theorem degToDms_eq (d : ℚ) (m0 q0 : ℤ)
    (hm : ⌊(pyAbs d * 3600) / 60⌋ = m0) (hq : ⌊(m0 : ℚ) / 60⌋ = q0) :
    degToDms d = ((if d < 0 then -q0 else q0) * (if (if d < 0 then -q0 else q0) > 0 then 1 else -1),
                  m0 - 60 * q0, pyAbs d * 3600 - 60 * m0,
                  if (if d < 0 then -q0 else q0) > 0 then 1 else -1) := by
  simp only [degToDms, hm, hq]

/-- Evaluation of `deg_to_dms(0.0)`: the hemisphere comes out as -1. -/
lemma degToDms_zero : degToDms 0 = (0, 0, 0, -1) := by
  rw [degToDms_eq 0 0 0]
  · norm_num [pyAbs]
  · rw [Int.floor_eq_iff]; norm_num [pyAbs]
  · rw [Int.floor_eq_iff]; norm_num

/-- Evaluation of `deg_to_dms(0.5)`: the integer degree part is 0, so
`hemi = 1 if degs > 0 else -1` yields -1 despite the positive input. -/
lemma degToDms_half : degToDms (1/2) = (0, 30, 0, -1) := by
  rw [degToDms_eq (1/2) 30 0]
  · norm_num [pyAbs]
  · rw [Int.floor_eq_iff]; norm_num [pyAbs]
  · rw [Int.floor_eq_iff]; norm_num

/-- Evaluation of `deg_to_dms(-5.5)`, the example of spec.md section 8. -/
lemma degToDms_negFiveHalf : degToDms (-11/2) = (5, 30, 0, -1) := by
  rw [degToDms_eq (-11/2) 330 5]
  · norm_num [pyAbs]
  · rw [Int.floor_eq_iff]; norm_num [pyAbs]
  · rw [Int.floor_eq_iff]; norm_num

/-- Characterisation of `get_photo_datetime` inside `tag_photos`: it
returns a time exactly when the EXIF timestamp parsed. -/
lemma getPhotoDatetime_some {p : PhotoMeta} {t : ℚ} :
    getPhotoDatetime p = some t ↔ p.dt = .valid t := by
  cases h : p.dt <;> simp [getPhotoDatetime, h]

/-- C1: the claim states `deg_to_dms` returns hemisphere +1 for every
non-negative input, in particular at 0.0 and at positive latitudes below
one degree.  The code computes the hemisphere from the sign of the
integer degree component (`hemi = 1 if degs > 0 else -1`, line 62), so
both `deg_to_dms(0.0)` and `deg_to_dms(0.5)` return hemisphere -1,
contradicting the claim; the documented example `deg_to_dms(-5.5)` does
hold.  This theorem evaluates the embedded code at those inputs. -/
theorem degToDms_hemisphere_mismatch :
    degToDms 0 = (0, 0, 0, -1) ∧ degToDms (1/2) = (0, 30, 0, -1) ∧
    degToDms (-11/2) = (5, 30, 0, -1) :=
  ⟨degToDms_zero, degToDms_half, degToDms_negFiveHalf⟩

/-- C5: on the two-point track (t=0, lat 0, lon 0), (t=100, lat 10,
lon 20), the tagger's piecewise-linear interpolation yields (5, 10) at
query time 50, (0, 0) at time 0 and (10, 20) at time 100. -/
theorem interpolation_two_point_track :
    interpLatitude track2 50 = 5 ∧ interpLongitude track2 50 = 10 ∧
    interpLatitude track2 0 = 0 ∧ interpLongitude track2 0 = 0 ∧
    interpLatitude track2 100 = 10 ∧ interpLongitude track2 100 = 20 := by
  refine ⟨?_, ?_, ?_, ?_, ?_, ?_⟩ <;>
    norm_num [interpLatitude, interpLongitude, npInterp, track2]

/-- C6: the claim states the degrees-to-DMS conversion round-trips for
every valid decimal-degree input.  Because the hemisphere of any input
in (0, 1) comes out as -1 (see C1), recombining
`hemisphere * (degrees + minutes/60 + seconds/3600)` at input 0.5 gives
-0.5, not 0.5: the round-trip fails on the code for every positive
input below one degree.  Exact rational arithmetic; the discrepancy
(the sign) is far beyond floating rounding tolerance. -/
theorem dms_round_trip_fails_below_one_degree :
    dmsToDecimal (degToDms (1/2)) = -(1/2) ∧
    dmsToDecimal (degToDms (1/2)) ≠ 1/2 := by
  rw [degToDms_half]; norm_num [dmsToDecimal]

/-- C7: a photo with no embedded capture timestamp is skipped with
outcome skipped-no-timestamp, as claimed; but a photo whose timestamp
is present and unparsable makes `get_photo_datetime` return `None`
(line 106), after which line 140 computes `None + photo_date_offset`
and raises `TypeError`, aborting the whole run instead of producing the
claimed skipped-no-timestamp outcome. -/
theorem unparsable_timestamp_aborts_run :
    processPhoto track2 (some 0) false photoNoDt = .ok (.skippedNoTimestamp, photoNoDt) ∧
    processPhoto track2 (some 0) false photoBadDt = .error .typeErrorNoneDatetime := by
  constructor <;>
    norm_num [processPhoto, photoNoDt, photoBadDt, photoPlain,
      photoHasDatetime, photoHasLatLong, getPhotoDatetime]

/-- C8: the claim states that calling the tagger without an offset
behaves as a zero offset.  The Python default for `photo_date_offset`
is `None` (line 112), and line 140 computes `datetime + None`, raising
`TypeError` on the first photo that reaches it, whereas an explicit
zero offset tags that same photo; the two calls are not equivalent. -/
theorem default_offset_raises_instead_of_zero :
    tagPhotosDefault track2 [photoPlain] = ([], some .typeErrorNoneOffset) ∧
    (tagPhotos track2 [photoPlain] (some 0) [".jpg", ".jpeg"] false).2 = none ∧
    (tagPhotos track2 [photoPlain] (some 0) [".jpg", ".jpeg"] false).1.map Prod.fst
      = [Outcome.tagged] := by
  refine ⟨?_, ?_, ?_⟩ <;>
    norm_num [tagPhotosDefault, tagPhotos, runPhotos, processPhoto, photoPlain,
      photoHasDatetime, photoHasLatLong, getPhotoDatetime,
      minDatetime, maxDatetime, track2, min_def, max_def, List.filter]

/-- C2 counterexample: for the three-point file whose middle point
lacks its `lat` attribute, the claim predicts a track of the two
well-formed points; the code instead raises `TypeError` out of
`extract_points` (no try/except inside the loop, line 44), so the load
returns no track at all. -/
theorem extractPoints_missing_lat_counterexample :
    extractPoints [rawGood1, rawBad, rawGood2] = .error .typeErrorNoLat ∧
    extractPoints [rawGood1, rawBad, rawGood2] ≠
      .ok [⟨0, 1, 2⟩, ⟨100, 4, 5⟩] := by
  have h1 : extractPoints [rawGood1, rawBad, rawGood2] = .error .typeErrorNoLat := by
    norm_num [extractPoints, rawGood1, rawBad, rawGood2]
  exact ⟨h1, by rw [h1]; exact fun hc => Except.noConfusion hc⟩

/-- C2 (amended): a track-log file in which any point lacks its
timestamp child or its `lat`/`lon` attribute makes the whole load fail
with the raised exception; no point is skipped and no track is
returned. -/
theorem extractPoints_missing_field_aborts (pts : List RawTrkpt)
    (h : ∃ p ∈ pts, p.time = none ∨ p.lat = none ∨ p.lon = none) :
    ∃ e, extractPoints pts = .error e := by
  induction pts with
  | nil => simp at h
  | cons p rest ih =>
    rcases h with ⟨q, hq, hfield⟩
    rcases List.mem_cons.mp hq with rfl | hmem
    · cases ht : q.time with
      | none => exact ⟨.indexErrorNoTime, by simp [extractPoints, ht]⟩
      | some t =>
        cases hlo : q.lon with
        | none => exact ⟨.typeErrorNoLon, by simp [extractPoints, ht, hlo]⟩
        | some lo =>
          cases hla : q.lat with
          | none => exact ⟨.typeErrorNoLat, by simp [extractPoints, ht, hlo, hla]⟩
          | some la => simp [ht, hla, hlo] at hfield
    · rcases ih ⟨q, hmem, hfield⟩ with ⟨e, he⟩
      cases ht : p.time with
      | none => exact ⟨.indexErrorNoTime, by simp [extractPoints, ht]⟩
      | some t =>
        cases hlo : p.lon with
        | none => exact ⟨.typeErrorNoLon, by simp [extractPoints, ht, hlo]⟩
        | some lo =>
          cases hla : p.lat with
          | none => exact ⟨.typeErrorNoLat, by simp [extractPoints, ht, hlo, hla]⟩
          | some la => exact ⟨e, by simp [extractPoints, ht, hlo, hla, he]⟩

/-- C2 witness: the amended theorem applied to the concrete fixture
file whose middle point lacks `lat`. -/
theorem extractPoints_missing_field_aborts_witness :
    ∃ e, extractPoints [rawGood1, rawBad, rawGood2] = .error e :=
  extractPoints_missing_field_aborts _
    ⟨rawBad, List.mem_cons_of_mem _ (List.mem_cons_self _ _),
      Or.inr (Or.inl rfl)⟩

/-- C3 counterexample: with a first photo whose open/decode raises and
a second well-formed photo, the claim predicts the failure is caught
and the second photo is still processed; the code has no try/except in
the loop (lines 125-173), so the run aborts with the exception and the
outcome list is empty — the second photo is never reached. -/
theorem tagPhotos_io_failure_counterexample :
    tagPhotos track2 [photoUnreadable, photoPlain] (some 0) [".jpg", ".jpeg"] false
      = ([], some .ioError) := by
  norm_num [tagPhotos, runPhotos, processPhoto, photoUnreadable, photoPlain, List.filter]

/-- C3 (amended): an I/O or metadata-decode failure on a single photo
is not caught inside `tag_photos`; the exception propagates, aborting
the run, and no photo after the failing one is processed. -/
theorem tagPhotos_photo_failure_aborts_run (track : List TrackPoint)
    (offset : Option ℚ) (ow : Bool) (p : PhotoMeta) (rest : List PhotoMeta)
    (e : TagError) (h : processPhoto track offset ow p = .error e) :
    runPhotos track offset ow (p :: rest) = ([], some e) := by
  simp [runPhotos, h]

/-- C3 witness: the amended theorem applied to the unreadable fixture
photo followed by a well-formed one. -/
theorem tagPhotos_photo_failure_aborts_run_witness :
    runPhotos track2 (some 0) false [photoUnreadable, photoPlain] = ([], some .ioError) :=
  tagPhotos_photo_failure_aborts_run track2 (some 0) false photoUnreadable
    [photoPlain] .ioError (by norm_num [processPhoto, photoUnreadable, photoPlain])

/-- C4: location data is written (outcome tagged) only when the photo
has a parsed capture timestamp and its adjusted time lies within
[min Datetime, max Datetime] inclusive; a photo reaching the bounds
check with adjusted time strictly outside gets skipped-out-of-bounds;
and with adjusted time inside the inclusive bounds (in particular
exactly at either bound) the outcome is never skipped-out-of-bounds. -/
theorem tagger_bounds_invariant (track : List TrackPoint) (off : ℚ)
    (ow : Bool) (p : PhotoMeta) :
    (∀ p', processPhoto track (some off) ow p = .ok (.tagged, p') →
      ∃ t, p.dt = .valid t ∧
        minDatetime track ≤ t + off ∧ t + off ≤ maxDatetime track) ∧
    (∀ t, p.readOk = true → p.dt = .valid t →
      ¬(photoHasLatLong p = true ∧ ow = false) →
      (t + off < minDatetime track ∨ maxDatetime track < t + off) →
      processPhoto track (some off) ow p = .ok (.skippedOutOfBounds, p)) ∧
    (∀ t p', p.dt = .valid t →
      minDatetime track ≤ t + off → t + off ≤ maxDatetime track →
      processPhoto track (some off) ow p ≠ .ok (.skippedOutOfBounds, p')) := by
  refine ⟨?_, ?_, ?_⟩
  · intro p' h
    simp only [processPhoto] at h
    split at h
    · simp at h
    split at h
    · simp at h
    split at h
    · simp at h
    split at h
    · simp at h
    rename_i t heq
    split at h
    · simp at h
    · rename_i hin
      rcases not_or.mp hin with ⟨h1, h2⟩
      exact ⟨t, getPhotoDatetime_some.mp heq, not_lt.mp h1, not_lt.mp h2⟩
  · intro t hread hdt hnoskip hoob
    simp [processPhoto, photoHasDatetime, getPhotoDatetime, hread, hdt, hnoskip, hoob]
  · intro t p' hdt hlo hhi h
    simp only [processPhoto] at h
    split at h
    · simp at h
    split at h
    · simp at h
    split at h
    · simp at h
    split at h
    · simp at h
    rename_i t' heq
    split at h
    · rename_i hcond
      rw [getPhotoDatetime_some, hdt] at heq
      cases heq
      rcases hcond with hc | hc
      · exact absurd hc (not_lt.mpr hlo)
      · exact absurd hc (not_lt.mpr hhi)
    · simp at h

/-- C4 witness: on track2 with zero offset, the photo at time 150
(strictly past the maximum 100) gets skipped-out-of-bounds, and the
photo exactly at the maximum is not rejected by the bounds check. -/
theorem tagger_bounds_invariant_witness :
    processPhoto track2 (some 0) false photoLate = .ok (.skippedOutOfBounds, photoLate) ∧
    processPhoto track2 (some 0) false photoAtBound ≠ .ok (.skippedOutOfBounds, photoAtBound) :=
  ⟨(tagger_bounds_invariant track2 0 false photoLate).2.1 150 rfl rfl
      (by norm_num [photoHasLatLong, photoLate, photoPlain])
      (Or.inr (by norm_num [maxDatetime, track2, max_def])),
    (tagger_bounds_invariant track2 0 false photoAtBound).2.2 100 photoAtBound rfl
      (by norm_num [minDatetime, track2, min_def])
      (by norm_num [maxDatetime, track2, max_def])⟩

/-- C9 counterexample: for a photo carrying all four GPS tags, the
claim states the overwrite path removes latitude, longitude and both
reference tags before the new write.  The deletion block (lines
156-161) deletes only `gps_latitude` and `gps_longitude`: both
reference tags survive it unchanged. -/
theorem overwrite_keeps_refs_counterexample :
    (deleteOldLatLong photoWithGps).gpsLat = none ∧
    (deleteOldLatLong photoWithGps).gpsLon = none ∧
    (deleteOldLatLong photoWithGps).gpsLatRef = some "S" ∧
    (deleteOldLatLong photoWithGps).gpsLonRef = some "W" := by
  refine ⟨?_, ?_, ?_, ?_⟩ <;> rfl

/-- C9 (amended): a photo that already carries GPS tags gets outcome
skipped-has-location with unchanged metadata when overwrite=false; when
overwrite=true, only the prior `gps_latitude` and `gps_longitude` are
deleted before writing — the two reference tags are not deleted — and
the subsequent write assigns fresh values to all four fields, so the
final metadata holds exactly the newly interpolated tags. -/
theorem overwrite_semantics (track : List TrackPoint) (off t : ℚ)
    (p : PhotoMeta) (hread : p.readOk = true) (hdt : p.dt = .valid t)
    (hgps : photoHasLatLong p = true)
    (hlo : minDatetime track ≤ t + off) (hhi : t + off ≤ maxDatetime track) :
    processPhoto track (some off) false p = .ok (.skippedHasLocation, p) ∧
    ((deleteOldLatLong p).gpsLatRef = p.gpsLatRef ∧
      (deleteOldLatLong p).gpsLonRef = p.gpsLonRef ∧
      (deleteOldLatLong p).gpsLat = none ∧ (deleteOldLatLong p).gpsLon = none) ∧
    processPhoto track (some off) true p =
      .ok (.tagged, writeNewLocation (deleteOldLatLong p)
        (interpLatitude track (t + off)) (interpLongitude track (t + off))) ∧
    (∀ q lat lon,
      (writeNewLocation q lat lon).gpsLat =
        some ((degToDms lat).1, (degToDms lat).2.1, (degToDms lat).2.2.1) ∧
      (writeNewLocation q lat lon).gpsLatRef =
        some (if (degToDms lat).2.2.2 = 1 then "N" else "S") ∧
      (writeNewLocation q lat lon).gpsLon =
        some ((degToDms lon).1, (degToDms lon).2.1, (degToDms lon).2.2.1) ∧
      (writeNewLocation q lat lon).gpsLonRef =
        some (if (degToDms lon).2.2.2 = 1 then "E" else "W")) := by
  have hlat : p.gpsLat.isSome = true := by
    simp [photoHasLatLong] at hgps; exact hgps.1.1.1
  rcases Option.isSome_iff_exists.mp hlat with ⟨v, hv⟩
  have hnotlt1 : ¬(t + off < minDatetime track) := not_lt.mpr hlo
  have hnotlt2 : ¬(maxDatetime track < t + off) := not_lt.mpr hhi
  refine ⟨?_, ?_, ?_, ?_⟩
  · simp [processPhoto, photoHasDatetime, hread, hdt, hgps]
  · simp [deleteOldLatLong, hv]
  · simp [processPhoto, photoHasDatetime, getPhotoDatetime, hread, hdt, hgps,
      hnotlt1, hnotlt2, hlat]
  · intro q lat lon
    refine ⟨?_, ?_, ?_, ?_⟩ <;> simp [writeNewLocation]

/-- C9 witness: the amended theorem applied to the fully-tagged fixture
photo on track2 with zero offset; with overwrite=false the photo is
skipped with its metadata unchanged. -/
theorem overwrite_semantics_witness :
    processPhoto track2 (some 0) false photoWithGps = .ok (.skippedHasLocation, photoWithGps) :=
  (overwrite_semantics track2 0 50 photoWithGps rfl rfl rfl
    (by norm_num [minDatetime, track2, min_def])
    (by norm_num [maxDatetime, track2, max_def])).1

/-- C10: `photo_has_lat_long` reads all four GPS attributes inside one
try, so a photo counts as already-located exactly when all four are
readable; a photo with only a proper subset of them is treated as
having no location and is tagged even with overwrite=false (given a
readable file, a parsed timestamp and an in-bounds adjusted time). -/
theorem hasLatLong_requires_all_four (p : PhotoMeta) :
    (photoHasLatLong p = true ↔
      p.gpsLat.isSome = true ∧ p.gpsLon.isSome = true ∧
      p.gpsLatRef.isSome = true ∧ p.gpsLonRef.isSome = true) ∧
    (photoHasLatLong p = false →
      ∀ track off t, p.readOk = true → p.dt = .valid t →
        minDatetime track ≤ t + off → t + off ≤ maxDatetime track →
        processPhoto track (some off) false p =
          .ok (.tagged, writeNewLocation p
            (interpLatitude track (t + off)) (interpLongitude track (t + off)))) := by
  constructor
  · simp [photoHasLatLong, and_assoc]
  · intro hno track off t hread hdt hlo hhi
    have hnotlt1 : ¬(t + off < minDatetime track) := not_lt.mpr hlo
    have hnotlt2 : ¬(maxDatetime track < t + off) := not_lt.mpr hhi
    simp [processPhoto, photoHasDatetime, getPhotoDatetime, hread, hdt, hno,
      hnotlt1, hnotlt2]

/-- C10 witness: the fixture photo carrying three of the four GPS tags
is classified as not having location and is tagged on track2 with zero
offset despite overwrite=false. -/
theorem hasLatLong_requires_all_four_witness :
    photoHasLatLong photoPartialGps = false ∧
    processPhoto track2 (some 0) false photoPartialGps =
      .ok (.tagged, writeNewLocation photoPartialGps
        (interpLatitude track2 (50 + 0)) (interpLongitude track2 (50 + 0))) :=
  ⟨rfl, (hasLatLong_requires_all_four photoPartialGps).2 rfl track2 0 50 rfl rfl
    (by norm_num [minDatetime, track2, min_def])
    (by norm_num [maxDatetime, track2, max_def])⟩

end GeolocatePhotos
